import Mathlib

/-!
Shallow embedding of the rule-based natural-language query parser of the
github-repo-analyzer repository (src/src/query_parser.py, class QueryParser).

Modelling conventions:
* Queries are Lean strings; all character-level work happens on `List Char`.
  `parse_query` first lower-cases and strips the input, exactly as
  `query.lower().strip()` does, and every helper then receives that
  lower-cased stripped character list, as in the source.
* Character classes are the ASCII fragments of Python's `\w`, `\s`, `\d`;
  the concrete inputs used below are ASCII, where the embedding matches
  Python exactly.
* The Python regular expressions used by the parser are simple enough that
  their backtracking collapses to deterministic maximal-run scanning
  (word-character runs and whitespace runs are disjoint), which is how they
  are embedded here.
* Python floats are modelled as rationals; every confidence constant in the
  source is a short decimal literal and all claims checked here are robust
  to the float/rational distinction.
* `self.programming_languages` and `self.project_types` are Python `set`s,
  so their iteration order is arbitrary.  The embedding therefore takes the
  iteration orders as explicit list parameters; `sourceLanguages` and
  `sourceProjectTypes` list the elements in the order they appear in the
  source text.  Keyword *scores* only use set membership, which is
  order-independent.
-/

/-- ASCII fragment of Python's regex `\w` class. -/
def isWordChar (c : Char) : Bool :=
  c.isAlpha || c.isDigit || c == '_'

/-- ASCII fragment of Python's whitespace class (used by `\s`, `str.split`, `str.strip`). -/
def isSpaceChar (c : Char) : Bool :=
  c == ' ' || c == '\t' || c == '\n' || c == '\r' || c == '\x0b' || c == '\x0c'

/-- `str.lower()` on the ASCII fragment. -/
def pyLower (s : List Char) : List Char :=
  s.map Char.toLower

/-- `str.strip()` on the ASCII fragment: drop leading and trailing whitespace. -/
def pyStrip (s : List Char) : List Char :=
  ((s.dropWhile isSpaceChar).reverse.dropWhile isSpaceChar).reverse

/-- Helper for `splitWs`: accumulates the current word (reversed). -/
def splitWsAux : List Char → List Char → List String
  | [], acc => if acc.isEmpty then [] else [String.mk acc.reverse]
  | c :: rest, acc =>
    if isSpaceChar c then
      if acc.isEmpty then splitWsAux rest []
      else String.mk acc.reverse :: splitWsAux rest []
    else splitWsAux rest (c :: acc)

/-- `str.split()` with no argument: split on whitespace runs, no empty words. -/
def splitWs (s : List Char) : List String :=
  splitWsAux s []

/-- A `\b w \b` match at the head of `s`, where `prevIsWord` records whether the
character before `s` is a word character (false at the start of the string).
`\b` holds where the word-character status of the two sides differs, with the
string edges counting as non-word. -/
def standAt (w : List Char) (prevIsWord : Bool) (s : List Char) : Bool :=
  w.isPrefixOf s
    && (prevIsWord != isWordChar (w.headD ' '))
    && (isWordChar (w.getLastD ' ')
          != (match s.drop w.length with
              | [] => false
              | c :: _ => isWordChar c))

/-- Scan of `re.search(r"\b w \b", s)` as a boolean, carrying the previous
character's word status. -/
def occursStandaloneAux (w : List Char) (prevIsWord : Bool) : List Char → Bool
  | [] => false
  | c :: rest =>
    standAt w prevIsWord (c :: rest) || occursStandaloneAux w (isWordChar c) rest

/-- `re.search(r"\b" + w + r"\b", s) is not None` for a fixed literal `w`. -/
def occursStandalone (w : List Char) (s : List Char) : Bool :=
  occursStandaloneAux w false s

/-- Tail search of `re.search(r"compare.*\b(and|with)\b", s)`: after a literal
`compare`, `.*` may consume any characters except a newline before the
standalone `and`/`with`. `prev` is the character just before the current
position (initially the final 'e' of "compare"). -/
def compareTail (prev : Char) : List Char → Bool
  | [] => false
  | c :: rest =>
    standAt ['a', 'n', 'd'] (isWordChar prev) (c :: rest)
      || standAt ['w', 'i', 't', 'h'] (isWordChar prev) (c :: rest)
      || (c != '\n' && compareTail c rest)

/-- `re.search(r"compare.*\b(and|with)\b", s) is not None`. -/
def compareThenAndWith : List Char → Bool
  | [] => false
  | c :: rest =>
    (['c', 'o', 'm', 'p', 'a', 'r', 'e'].isPrefixOf (c :: rest)
        && compareTail 'e' ((c :: rest).drop 7))
      || compareThenAndWith rest

/-- Line 256 of the source: `re.search(r"\b(vs|versus)\b", q) or
re.search(r"compare.*\b(and|with)\b", q)`. -/
def vsOrCompareRegex (ql : List Char) : Bool :=
  occursStandalone ['v', 's'] ql || occursStandalone ['v', 'e', 'r', 's', 'u', 's'] ql
    || compareThenAndWith ql

/-- First maximal run of decimal digits: `re.findall(r"\d+", s)[0]` when the
list is non-empty. -/
def firstDigitRun : List Char → Option (List Char)
  | [] => none
  | c :: rest =>
    if c.isDigit then some (c :: rest.takeWhile Char.isDigit)
    else firstDigitRun rest

/-- `int` of a digit string. -/
def digitsToNat (ds : List Char) : Nat :=
  ds.foldl (fun n c => 10 * n + (c.toNat - '0'.toNat)) 0

/-- Try the literal alternatives of a `(?:a|b|...)` group in order; each
candidate must be followed by `\s+(\w+)` and the second capture group is
returned.  Word runs and whitespace runs are taken maximally, which is what
the greedy regex engine does here since the classes are disjoint. -/
def tryAlts (alts : List (List Char)) (s : List Char) : Option (List Char) :=
  match alts with
  | [] => none
  | a :: rest =>
    if a.isPrefixOf s then
      let t := s.drop a.length
      let sp := t.takeWhile isSpaceChar
      let t2 := t.drop sp.length
      let w2 := t2.takeWhile isWordChar
      if !sp.isEmpty && !w2.isEmpty then some w2 else tryAlts rest s
    else tryAlts rest s

/-- Match `(\w+)\s+(?:alt1|alt2|...)\s+(\w+)` at the head of `s`
(comparison patterns 1-3 of the source). -/
def matchShapeA (alts : List (List Char)) (s : List Char) : Option (List Char × List Char) :=
  let w1 := s.takeWhile isWordChar
  if w1.isEmpty then none
  else
    let t := s.drop w1.length
    let sp := t.takeWhile isSpaceChar
    if sp.isEmpty then none
    else
      match tryAlts alts (t.drop sp.length) with
      | some w2 => some (w1, w2)
      | none => none

/-- Match `lit\s+(\w+)\s+(?:alt1|...)\s+(\w+)` at the head of `s`
(comparison patterns 4-5 of the source: `compare ...`, `between ...`). -/
def matchShapeB (lit : List Char) (alts : List (List Char)) (s : List Char) :
    Option (List Char × List Char) :=
  if lit.isPrefixOf s then
    let t := s.drop lit.length
    let sp := t.takeWhile isSpaceChar
    if sp.isEmpty then none
    else
      let t2 := t.drop sp.length
      let w1 := t2.takeWhile isWordChar
      if w1.isEmpty then none
      else
        let t3 := t2.drop w1.length
        let sp2 := t3.takeWhile isSpaceChar
        if sp2.isEmpty then none
        else
          match tryAlts alts (t3.drop sp2.length) with
          | some w2 => some (w1, w2)
          | none => none
  else none

/-- `re.search`: try the matcher at every start position, leftmost match wins. -/
def regexScan {α : Type} (m : List Char → Option α) : List Char → Option α
  | [] => m []
  | c :: rest =>
    match m (c :: rest) with
    | some r => some r
    | none => regexScan m rest

/-- Lines 260-273 of the source: try the five comparison extraction patterns in
order; the first pattern that matches anywhere yields the two capture groups. -/
def findComparisonRepos (ql : List Char) : Option (List Char × List Char) :=
  match regexScan (matchShapeA [['v', 's'], ['v', 'e', 'r', 's', 'u', 's']]) ql with
  | some r => some r
  | none =>
    match regexScan (matchShapeA [['a', 'n', 'd'], ['w', 'i', 't', 'h']]) ql with
    | some r => some r
    | none =>
      match regexScan (matchShapeA [['o', 'r']]) ql with
      | some r => some r
      | none =>
        match regexScan (matchShapeB ['c', 'o', 'm', 'p', 'a', 'r', 'e']
            [['a', 'n', 'd'], ['w', 'i', 't', 'h'], ['t', 'o']]) ql with
        | some r => some r
        | none =>
          regexScan (matchShapeB ['b', 'e', 't', 'w', 'e', 'e', 'n'] [['a', 'n', 'd']]) ql

/-- The `self.programming_languages` set, in source-text order. -/
def sourceLanguages : List String :=
  ["python", "javascript", "java", "typescript", "go", "rust", "c++", "c#",
   "php", "ruby", "swift", "kotlin", "scala", "r", "matlab", "shell",
   "html", "css", "sql", "dart", "lua", "perl", "haskell", "clojure",
   "js", "ts", "cpp", "c", "objective-c", "vue", "react", "angular"]

/-- The `self.project_types` set, in source-text order. -/
def sourceProjectTypes : List String :=
  ["framework", "frameworks", "library", "libraries", "tool", "tools",
   "package", "packages", "module", "modules", "plugin", "plugins",
   "extension", "extensions", "sdk", "api", "service", "app", "application"]

/-- The `self.sort_criteria` set (never consulted by `parse_query`). -/
def sort_criteria : List String :=
  ["star", "stars", "starred", "fork", "forks", "forked",
   "activity", "active", "recent", "updated", "commit", "commits",
   "issue", "issues", "contributor", "contributors", "watcher", "watchers"]

def ranking_keywords : List String :=
  ["top", "best", "most", "popular", "starred", "forked"]

def comparison_keywords : List String :=
  ["vs", "versus", "compare", "comparison", "difference", "better"]

def trending_keywords : List String :=
  ["trending", "hot", "rising", "popular", "recent"]

def search_keywords : List String :=
  ["find", "show", "search", "get", "about", "projects", "repositories"]

/-- The technical-term set of the search-fallback confidence computation
(lines 294-298 of the source). -/
def tech_terms : List String :=
  ["framework", "frameworks", "library", "libraries",
   "tool", "tools", "microservice", "microservices",
   "api", "web", "database", "testing", "machine",
   "learning", "docker", "kubernetes"]

/-- `len(query_words & keyword_set)`: the keyword lists above are
duplicate-free, so counting the keywords present among the query words is the
size of the set intersection. -/
def keywordScore (queryWords : List String) (keywords : List String) : Nat :=
  (keywords.filter (fun k => queryWords.contains k)).length

/-- `query.lower().strip()` as a character list. -/
def queryLowerOf (query : String) : List Char :=
  pyStrip (pyLower query.data)

/-- Ranking score: keyword hits plus 1 if the query contains a decimal number
(lines 244 and 250-252). -/
def rankingScoreOf (ql : List Char) : Nat :=
  keywordScore (splitWs ql) ranking_keywords
    + (if (firstDigitRun ql).isSome then 1 else 0)

/-- Comparison score: keyword hits, plus 2 for the vs/versus/compare-regex,
plus 1 if a comparison extraction pattern matched (lines 245, 256-257, 268-273). -/
def comparisonScoreOf (ql : List Char) : Nat :=
  keywordScore (splitWs ql) comparison_keywords
    + (if vsOrCompareRegex ql then 2 else 0)
    + (if (findComparisonRepos ql).isSome then 1 else 0)

def trendingScoreOf (ql : List Char) : Nat :=
  keywordScore (splitWs ql) trending_keywords

def searchScoreOf (ql : List Char) : Nat :=
  keywordScore (splitWs ql) search_keywords

/-- `max_score = max(ranking_score, comparison_score, trending_score, search_score)`. -/
def maxScoreOf (ql : List Char) : Nat :=
  max (max (rankingScoreOf ql) (comparisonScoreOf ql))
    (max (trendingScoreOf ql) (searchScoreOf ql))

/-- `result["limit"]`: initialized to 20, overwritten with
`min(int(numbers[0]), 50)` when the query contains a decimal number. -/
def limitOf (ql : List Char) : Nat :=
  match firstDigitRun ql with
  | some ds => min (digitsToNat ds) 50
  | none => 20

/-- `result["repositories"]`: the two capture groups of the first comparison
pattern that matched, else empty. -/
def repositoriesOf (ql : List Char) : List String :=
  match findComparisonRepos ql with
  | some (g1, g2) => [String.mk g1, String.mk g2]
  | none => []

/-- `word.strip('.,!?')`. -/
def stripPunctuation (w : List Char) : List Char :=
  let p := fun (c : Char) => c == '.' || c == ',' || c == '!' || c == '?'
  ((w.dropWhile p).reverse.dropWhile p).reverse

/-- `tech_word_count` of the search fallback: words of the query (with
multiplicity) whose punctuation-stripped form is a technical term. -/
def techCountOf (ql : List Char) : Nat :=
  ((splitWs ql).filter
    (fun w => tech_terms.contains (String.mk (stripPunctuation w.data)))).length

/-- Lines 293-303 of the source.  `result["language"]` still holds its initial
`None` at this point (language extraction only happens at line 306), so the
`has_language` test reads `None` and the `+ 0.2` branch is dead code; the
embedding keeps it verbatim. -/
def searchFallbackConfidence (ql : List Char) : ℚ :=
  let resultLanguage : Option String := none
  let base : ℚ :=
    0.4 + (searchScoreOf ql : ℚ) * 0.1 + (techCountOf ql : ℚ) * 0.1
  let base2 : ℚ := if resultLanguage.isSome then base + 0.2 else base
  min 0.8 base2

inductive QueryIntent where
  | ranking
  | comparison
  | trending
  | search
  | unknown
deriving DecidableEq, Repr

/-- Lines 276-303: the intent / base-confidence / trending-days resolution
chain.  Returns (intent, confidence before the language and project-type
boosts, the `filters["days"]` value set by the trending branch). -/
def classify (ql : List Char) : QueryIntent × ℚ × Option Nat :=
  if maxScoreOf ql = 0 then (QueryIntent.search, 0.3, none)
  else if comparisonScoreOf ql = maxScoreOf ql then
    (QueryIntent.comparison, min 0.9 (0.6 + (comparisonScoreOf ql : ℚ) * 0.1), none)
  else if rankingScoreOf ql = maxScoreOf ql then
    (QueryIntent.ranking, min 0.9 (0.6 + (rankingScoreOf ql : ℚ) * 0.1), none)
  else if trendingScoreOf ql = maxScoreOf ql then
    (QueryIntent.trending, min 0.8 (0.5 + (trendingScoreOf ql : ℚ) * 0.1), some 30)
  else (QueryIntent.search, searchFallbackConfidence ql, none)

/-- Decision the language loop takes for a single vocabulary entry on the
(lower-cased) query: `none` means no match / `continue`, `some s` means
`return s`  (lines 327-349 of the source). -/
def langDecision (ql : List Char) (lang : String) : Option String :=
  if lang.length = 1 then
    if occursStandalone lang.data ql then
      if lang = "c" && occursStandalone ['c', '+', '+'] ql then some "c++"
      else if lang = "c"
          && !(occursStandalone "c language".data ql
                || occursStandalone "c programming".data ql) then none
      else some lang
    else none
  else
    if occursStandalone lang.data ql then
      if lang = "js" then some "javascript"
      else if lang = "ts" then some "typescript"
      else if lang = "cpp" then some "c++"
      else some lang
    else none

/-- First element of the iteration order whose decision fires. -/
def firstSome {α β : Type} (f : α → Option β) : List α → Option β
  | [] => none
  | x :: rest =>
    match f x with
    | some r => some r
    | none => firstSome f rest

/-- Contiguous-sublist test (Python's `in` on strings). -/
def listInfix (sub : List Char) : List Char → Bool
  | [] => sub.isEmpty
  | c :: rest => sub.isPrefixOf (c :: rest) || listInfix sub rest

/-- `'sub' in query` (Python substring containment). -/
def strContains (ql : List Char) (sub : String) : Bool :=
  listInfix sub.data ql

/-- `QueryParser._extract_language` on the lower-cased query, with the
iteration order of the `programming_languages` set made explicit
(lines 323-361 of the source). -/
def extract_language (order : List String) (ql : List Char) : Option String :=
  match firstSome (langDecision ql) order with
  | some r => some r
  | none =>
    if strContains ql "node" || strContains ql "npm" then some "javascript"
    else if strContains ql "pip" || strContains ql "django" || strContains ql "flask" then
      some "python"
    else if strContains ql "gem" || strContains ql "rails" then some "ruby"
    else if strContains ql "maven" || strContains ql "gradle" then some "java"
    else none

/-- Decision of the project-type loop for one vocabulary entry: substring
containment, then plural normalization (lines 363-377). -/
def typeDecision (ql : List Char) (t : String) : Option String :=
  if listInfix t.data ql then
    some (if t.endsWith "s" then
            if t = "libraries" then "library"
            else if t = "frameworks" then "framework"
            else String.mk t.data.dropLast
          else t)
  else none

/-- `QueryParser._extract_project_type` with the set iteration order explicit. -/
def extract_project_type (order : List String) (ql : List Char) : Option String :=
  firstSome (typeDecision ql) order

structure Filters where
  days : Option Nat
  min_stars : Option Nat
  max_size : Option Nat
  min_size : Option Nat
deriving DecidableEq, Repr

/-- `QueryParser._extract_filters` (lines 379-405): independent if/elif chains
of literal substring checks. -/
def extract_filters (ql : List Char) : Filters :=
  { days :=
      if strContains ql "this year" then some 365
      else if strContains ql "this month" then some 30
      else if strContains ql "this week" then some 7
      else if strContains ql "recent" then some 30
      else none,
    min_stars :=
      if strContains ql "high activity" || strContains ql "very active" then some 100
      else if strContains ql "active" then some 10
      else none,
    max_size := if strContains ql "small" then some 1000 else none,
    min_size :=
      if !strContains ql "small" && strContains ql "large" then some 10000
      else none }

def optOr {α : Type} (a b : Option α) : Option α :=
  match a with
  | some x => some x
  | none => b

/-- `result["filters"].update(extracted)`: keys present in `extracted` win. -/
def filtersUpdate (old new : Filters) : Filters :=
  { days := optOr new.days old.days,
    min_stars := optOr new.min_stars old.min_stars,
    max_size := optOr new.max_size old.max_size,
    min_size := optOr new.min_size old.min_size }

/-- The dictionary `QueryParser.parse_query` returns. -/
structure ParseResult where
  intent : QueryIntent
  language : Option String
  project_type : Option String
  sort_by : String
  limit : Nat
  repositories : List String
  filters : Filters
  original_query : String
  confidence : ℚ
deriving DecidableEq, Repr

/-- `QueryParser.parse_query` (lines 214-321), with the iteration orders of
the two vocabulary sets as explicit parameters. -/
def parse_query (langOrder typeOrder : List String) (query : String) : ParseResult :=
  let ql := queryLowerOf query
  let detectedLanguage := extract_language langOrder ql
  let conf1 : ℚ :=
    if detectedLanguage.isSome then (classify ql).2.1 + 0.1 else (classify ql).2.1
  let detectedType := extract_project_type typeOrder ql
  let conf2 : ℚ := if detectedType.isSome then conf1 + 0.1 else conf1
  { intent := (classify ql).1,
    language := detectedLanguage,
    project_type := detectedType,
    sort_by := "stars",
    limit := limitOf ql,
    repositories := repositoriesOf ql,
    filters :=
      filtersUpdate
        { days := (classify ql).2.2, min_stars := none, max_size := none, min_size := none }
        (extract_filters ql),
    original_query := query,
    confidence := conf2 }

/-- `QueryParser.validate_query` (lines 407-431). -/
def validate_query (p : ParseResult) : Bool :=
  if p.intent = QueryIntent.unknown then false
  else if p.intent = QueryIntent.comparison then decide (1 ≤ p.repositories.length)
  else if p.intent = QueryIntent.ranking ∨ p.intent = QueryIntent.trending then
    p.language.isSome || p.project_type.isSome || decide ((0.6 : ℚ) < p.confidence)
  else true

/-- The `\b[Cc]( language| programming)\b` context test of the single-letter
"c" disambiguation (line 335 of the source). -/
def hasCContext (ql : List Char) : Bool :=
  occursStandalone "c language".data ql || occursStandalone "c programming".data ql

/-! ### Projection lemmas: the fields of `parse_query` in terms of the stage functions. -/

theorem parse_query_intent (lo ty : List String) (q : String) :
    (parse_query lo ty q).intent = (classify (queryLowerOf q)).1 := rfl

theorem parse_query_limit (lo ty : List String) (q : String) :
    (parse_query lo ty q).limit = limitOf (queryLowerOf q) := rfl

theorem parse_query_language (lo ty : List String) (q : String) :
    (parse_query lo ty q).language = extract_language lo (queryLowerOf q) := rfl

theorem parse_query_project_type (lo ty : List String) (q : String) :
    (parse_query lo ty q).project_type = extract_project_type ty (queryLowerOf q) := rfl

theorem parse_query_filters_days (lo ty : List String) (q : String) :
    (parse_query lo ty q).filters.days =
      optOr (extract_filters (queryLowerOf q)).days (classify (queryLowerOf q)).2.2 := rfl

theorem parse_query_confidence (lo ty : List String) (q : String) :
    (parse_query lo ty q).confidence =
      (if (extract_project_type ty (queryLowerOf q)).isSome then
        (if (extract_language lo (queryLowerOf q)).isSome then
          (classify (queryLowerOf q)).2.1 + 0.1
         else (classify (queryLowerOf q)).2.1) + 0.1
       else
        (if (extract_language lo (queryLowerOf q)).isSome then
          (classify (queryLowerOf q)).2.1 + 0.1
         else (classify (queryLowerOf q)).2.1)) := rfl

/-! ### Branch lemmas for the intent-resolution chain. -/

theorem classify_of_max_zero (ql : List Char) (h0 : maxScoreOf ql = 0) :
    classify ql = (QueryIntent.search, 0.3, none) := by
  unfold classify
  rw [if_pos h0]

theorem classify_of_comparison (ql : List Char) (h0 : ¬ maxScoreOf ql = 0)
    (hc : comparisonScoreOf ql = maxScoreOf ql) :
    classify ql =
      (QueryIntent.comparison, min 0.9 (0.6 + (comparisonScoreOf ql : ℚ) * 0.1), none) := by
  unfold classify
  rw [if_neg h0, if_pos hc]

theorem classify_of_ranking (ql : List Char) (h0 : ¬ maxScoreOf ql = 0)
    (hc : ¬ comparisonScoreOf ql = maxScoreOf ql)
    (hr : rankingScoreOf ql = maxScoreOf ql) :
    classify ql =
      (QueryIntent.ranking, min 0.9 (0.6 + (rankingScoreOf ql : ℚ) * 0.1), none) := by
  unfold classify
  rw [if_neg h0, if_neg hc, if_pos hr]

theorem classify_of_trending (ql : List Char) (h0 : ¬ maxScoreOf ql = 0)
    (hc : ¬ comparisonScoreOf ql = maxScoreOf ql)
    (hr : ¬ rankingScoreOf ql = maxScoreOf ql)
    (ht : trendingScoreOf ql = maxScoreOf ql) :
    classify ql =
      (QueryIntent.trending, min 0.8 (0.5 + (trendingScoreOf ql : ℚ) * 0.1), some 30) := by
  unfold classify
  rw [if_neg h0, if_neg hc, if_neg hr, if_pos ht]

theorem classify_of_search_fallback (ql : List Char) (h0 : ¬ maxScoreOf ql = 0)
    (hc : ¬ comparisonScoreOf ql = maxScoreOf ql)
    (hr : ¬ rankingScoreOf ql = maxScoreOf ql)
    (ht : ¬ trendingScoreOf ql = maxScoreOf ql) :
    classify ql = (QueryIntent.search, searchFallbackConfidence ql, none) := by
  unfold classify
  rw [if_neg h0, if_neg hc, if_neg hr, if_neg ht]

/-- The `has_language` test of the fallback branch reads the still-`None`
`result["language"]`, so the `+ 0.2` boost never fires and the fallback base
confidence is just the capped keyword/technical-term sum. -/
theorem searchFallbackConfidence_eq (ql : List Char) :
    searchFallbackConfidence ql =
      min 0.8 (0.4 + (searchScoreOf ql : ℚ) * 0.1 + (techCountOf ql : ℚ) * 0.1) := rfl

theorem classify_confidence_bounds (ql : List Char) :
    (3/10 : ℚ) ≤ (classify ql).2.1 ∧ (classify ql).2.1 ≤ 9/10 := by
  have hcs : (0:ℚ) ≤ (comparisonScoreOf ql : ℚ) := Nat.cast_nonneg _
  have hrs : (0:ℚ) ≤ (rankingScoreOf ql : ℚ) := Nat.cast_nonneg _
  have hts : (0:ℚ) ≤ (trendingScoreOf ql : ℚ) := Nat.cast_nonneg _
  have hss : (0:ℚ) ≤ (searchScoreOf ql : ℚ) := Nat.cast_nonneg _
  have htc : (0:ℚ) ≤ (techCountOf ql : ℚ) := Nat.cast_nonneg _
  by_cases h0 : maxScoreOf ql = 0
  · rw [classify_of_max_zero ql h0]
    constructor <;> norm_num
  by_cases hc : comparisonScoreOf ql = maxScoreOf ql
  · rw [classify_of_comparison ql h0 hc]
    dsimp only
    constructor
    · refine le_min (by norm_num) ?_
      nlinarith
    · exact le_trans (min_le_left _ _) (by norm_num)
  by_cases hr : rankingScoreOf ql = maxScoreOf ql
  · rw [classify_of_ranking ql h0 hc hr]
    dsimp only
    constructor
    · refine le_min (by norm_num) ?_
      nlinarith
    · exact le_trans (min_le_left _ _) (by norm_num)
  by_cases ht : trendingScoreOf ql = maxScoreOf ql
  · rw [classify_of_trending ql h0 hc hr ht]
    dsimp only
    constructor
    · refine le_min (by norm_num) ?_
      nlinarith
    · exact le_trans (min_le_left _ _) (by norm_num)
  · rw [classify_of_search_fallback ql h0 hc hr ht]
    dsimp only
    rw [searchFallbackConfidence_eq]
    constructor
    · refine le_min (by norm_num) ?_
      nlinarith
    · exact le_trans (min_le_left _ _) (by norm_num)

/-! ### Claim theorems. -/

/-- C10: for every input string (and any vocabulary iteration orders), the
`sort_by` field of the result returned by `parse_query` equals "stars"; the
`sort_criteria` vocabulary is never consulted, so no input ever produces
"forks" or "updated". -/
theorem c10_sort_by_always_stars (lo ty : List String) (q : String) :
    (parse_query lo ty q).sort_by = "stars" := rfl

/-- C9: for every input string, the result returned by `parse_query` has an
intent different from Unknown: every branch of the intent-resolution chain
assigns one of Ranking, Comparison, Trending or Search, so the initial
Unknown value is always overwritten. -/
theorem c9_intent_never_unknown (lo ty : List String) (q : String) :
    (parse_query lo ty q).intent ≠ QueryIntent.unknown := by
  rw [parse_query_intent]
  by_cases h0 : maxScoreOf (queryLowerOf q) = 0
  · rw [classify_of_max_zero _ h0]
    simp
  by_cases hc : comparisonScoreOf (queryLowerOf q) = maxScoreOf (queryLowerOf q)
  · rw [classify_of_comparison _ h0 hc]
    simp
  by_cases hr : rankingScoreOf (queryLowerOf q) = maxScoreOf (queryLowerOf q)
  · rw [classify_of_ranking _ h0 hc hr]
    simp
  by_cases ht : trendingScoreOf (queryLowerOf q) = maxScoreOf (queryLowerOf q)
  · rw [classify_of_trending _ h0 hc hr ht]
    simp
  · rw [classify_of_search_fallback _ h0 hc hr ht]
    simp

/-- C1, counterexample to the claimed bound confidence ≤ 1: for the query
"compare python vs cobra frameworks" the comparison branch yields base 0.9 and
both the language and the project-type boosts fire, so `parse_query` returns
confidence 1.1 > 1.  (Only "python" and "framework"/"frameworks" match this
query, so the same value results for every iteration order of the two sets.) -/
theorem c1_counterexample_confidence_exceeds_one :
    (parse_query sourceLanguages sourceProjectTypes
        "compare python vs cobra frameworks").confidence = 11/10 ∧
    ¬ ((parse_query sourceLanguages sourceProjectTypes
        "compare python vs cobra frameworks").confidence ≤ 1) := by
  have hbase : (classify (queryLowerOf "compare python vs cobra frameworks")).2.1 = 9/10 := by
    rw [classify_of_comparison _ (by decide) (by decide)]
    dsimp only
    rw [show comparisonScoreOf (queryLowerOf "compare python vs cobra frameworks") = 5
      from by decide]
    rw [min_eq_left (by norm_num)]
    norm_num
  have hconf : (parse_query sourceLanguages sourceProjectTypes
      "compare python vs cobra frameworks").confidence = 11/10 := by
    rw [parse_query_confidence]
    rw [if_pos (show (extract_project_type sourceProjectTypes
        (queryLowerOf "compare python vs cobra frameworks")).isSome = true from by decide)]
    rw [if_pos (show (extract_language sourceLanguages
        (queryLowerOf "compare python vs cobra frameworks")).isSome = true from by decide)]
    rw [hbase]
    norm_num
  exact ⟨hconf, by rw [hconf]; norm_num⟩

/-- C1 (amended): for every input string and any vocabulary iteration orders,
`parse_query` returns a confidence in the closed interval [0, 1.1] — the base
confidence lies in [0.3, 0.9] and the two slot boosts add at most 0.1 each,
so the stated upper bound 1 can be exceeded — and the intent is one of the
five enumerated values. -/
theorem c1_amended_confidence_range (lo ty : List String) (q : String) :
    0 ≤ (parse_query lo ty q).confidence ∧
    (parse_query lo ty q).confidence ≤ 11/10 ∧
    ((parse_query lo ty q).intent = QueryIntent.ranking ∨
     (parse_query lo ty q).intent = QueryIntent.comparison ∨
     (parse_query lo ty q).intent = QueryIntent.trending ∨
     (parse_query lo ty q).intent = QueryIntent.search ∨
     (parse_query lo ty q).intent = QueryIntent.unknown) := by
  obtain ⟨hlb, hub⟩ := classify_confidence_bounds (queryLowerOf q)
  refine ⟨?_, ?_, ?_⟩
  · rw [parse_query_confidence]
    split_ifs <;> linarith
  · rw [parse_query_confidence]
    split_ifs <;> linarith
  · cases he : (parse_query lo ty q).intent <;> simp

/-- C2, counterexample to "returns ... with confidence 0.3": for the query
"python" every keyword score is 0, so the zero-score branch fires, but the
language boost still applies afterwards and `parse_query` returns confidence
0.4, not 0.3.  (0.3 is only the base confidence set by the branch.) -/
theorem c2_counterexample_confidence_not_point_three :
    maxScoreOf (queryLowerOf "python") = 0 ∧
    (parse_query sourceLanguages sourceProjectTypes "python").intent = QueryIntent.search ∧
    (parse_query sourceLanguages sourceProjectTypes "python").confidence = 2/5 ∧
    ((2 : ℚ)/5 ≠ 3/10) := by
  refine ⟨by decide, ?_, ?_, by norm_num⟩
  · rw [parse_query_intent, classify_of_max_zero _ (by decide)]
  · rw [parse_query_confidence,
      if_neg (show ¬ (extract_project_type sourceProjectTypes
        (queryLowerOf "python")).isSome = true from by decide),
      if_pos (show (extract_language sourceLanguages
        (queryLowerOf "python")).isSome = true from by decide),
      classify_of_max_zero _ (by decide)]
    norm_num

/-- C2 (amended): `parse_query` resolves intent from the four keyword scores
with comparison given priority on ties — if the comparison score equals the
maximum it returns Comparison; else if the ranking score equals the maximum,
Ranking; else if the trending score equals the maximum, Trending; else Search —
and whenever the maximum score is exactly 0 across all four categories it
returns Search (never Unknown) with base confidence 0.3, to which the later
language and project-type boosts of +0.1 each may still be added. -/
theorem c2_amended_intent_resolution (lo ty : List String) (q : String) :
    (maxScoreOf (queryLowerOf q) ≠ 0 →
      ((comparisonScoreOf (queryLowerOf q) = maxScoreOf (queryLowerOf q) →
          (parse_query lo ty q).intent = QueryIntent.comparison) ∧
       (comparisonScoreOf (queryLowerOf q) ≠ maxScoreOf (queryLowerOf q) →
        rankingScoreOf (queryLowerOf q) = maxScoreOf (queryLowerOf q) →
          (parse_query lo ty q).intent = QueryIntent.ranking) ∧
       (comparisonScoreOf (queryLowerOf q) ≠ maxScoreOf (queryLowerOf q) →
        rankingScoreOf (queryLowerOf q) ≠ maxScoreOf (queryLowerOf q) →
        trendingScoreOf (queryLowerOf q) = maxScoreOf (queryLowerOf q) →
          (parse_query lo ty q).intent = QueryIntent.trending) ∧
       (comparisonScoreOf (queryLowerOf q) ≠ maxScoreOf (queryLowerOf q) →
        rankingScoreOf (queryLowerOf q) ≠ maxScoreOf (queryLowerOf q) →
        trendingScoreOf (queryLowerOf q) ≠ maxScoreOf (queryLowerOf q) →
          (parse_query lo ty q).intent = QueryIntent.search))) ∧
    (maxScoreOf (queryLowerOf q) = 0 →
      (parse_query lo ty q).intent = QueryIntent.search ∧
      (parse_query lo ty q).confidence =
        0.3 + (if (extract_language lo (queryLowerOf q)).isSome then (0.1 : ℚ) else 0)
            + (if (extract_project_type ty (queryLowerOf q)).isSome then (0.1 : ℚ) else 0)) := by
  constructor
  · intro h0
    refine ⟨?_, ?_, ?_, ?_⟩
    · intro hc
      rw [parse_query_intent, classify_of_comparison _ h0 hc]
    · intro hc hr
      rw [parse_query_intent, classify_of_ranking _ h0 hc hr]
    · intro hc hr ht
      rw [parse_query_intent, classify_of_trending _ h0 hc hr ht]
    · intro hc hr ht
      rw [parse_query_intent, classify_of_search_fallback _ h0 hc hr ht]
  · intro h0
    constructor
    · rw [parse_query_intent, classify_of_max_zero _ h0]
    · rw [parse_query_confidence, classify_of_max_zero _ h0]
      dsimp only
      split_ifs <;> norm_num

/-- C2 witness: "compare a vs b" has a non-zero maximum with the comparison
score equal to it, and the theorem yields intent Comparison. -/
theorem c2_witness_comparison_tie_priority :
    (parse_query sourceLanguages sourceProjectTypes "compare a vs b").intent =
      QueryIntent.comparison :=
  ((c2_amended_intent_resolution sourceLanguages sourceProjectTypes
      "compare a vs b").1 (by decide)).1 (by decide)

/-- C3, counterexample to the claimed cap min(0.7, 0.4 + search_score*0.1):
the query "find show search get about projects repositories" has search score
7, no technical terms and no language, and `parse_query` returns confidence
0.8 — the code caps the fallback at 0.8, not at 0.7 as the claim states. -/
theorem c3_counterexample_cap_is_point_eight :
    (parse_query sourceLanguages sourceProjectTypes
        "find show search get about projects repositories").intent = QueryIntent.search ∧
    (parse_query sourceLanguages sourceProjectTypes
        "find show search get about projects repositories").confidence = 4/5 ∧
    (4 : ℚ)/5 ≠ min (7/10) (0.4 + (7 : ℚ) * 0.1) := by
  refine ⟨?_, ?_, ?_⟩
  · rw [parse_query_intent,
      classify_of_search_fallback _ (by decide) (by decide) (by decide) (by decide)]
  · rw [parse_query_confidence,
      if_neg (show ¬ (extract_project_type sourceProjectTypes
        (queryLowerOf "find show search get about projects repositories")).isSome = true
        from by decide),
      if_neg (show ¬ (extract_language sourceLanguages
        (queryLowerOf "find show search get about projects repositories")).isSome = true
        from by decide),
      classify_of_search_fallback _ (by decide) (by decide) (by decide) (by decide)]
    dsimp only
    rw [searchFallbackConfidence_eq,
      show searchScoreOf (queryLowerOf "find show search get about projects repositories") = 7
        from by decide,
      show techCountOf (queryLowerOf "find show search get about projects repositories") = 0
        from by decide]
    rw [min_eq_left (by norm_num)]
    norm_num
  · rw [min_eq_left (by norm_num)]
    norm_num

/-- C3 (amended): for every query that falls through to the Search-fallback
confidence computation, the base confidence equals
min(0.8, 0.4 + search_score*0.1 + tech_word_count*0.1); the claimed +0.2
language boost never applies, because the `has_language` check reads
`result["language"]` before language extraction has run, when it is still
None. -/
theorem c3_amended_search_fallback_confidence (lo ty : List String) (q : String)
    (h0 : maxScoreOf (queryLowerOf q) ≠ 0)
    (hc : comparisonScoreOf (queryLowerOf q) ≠ maxScoreOf (queryLowerOf q))
    (hr : rankingScoreOf (queryLowerOf q) ≠ maxScoreOf (queryLowerOf q))
    (ht : trendingScoreOf (queryLowerOf q) ≠ maxScoreOf (queryLowerOf q)) :
    (parse_query lo ty q).intent = QueryIntent.search ∧
    (classify (queryLowerOf q)).2.1 =
      min 0.8 (0.4 + (searchScoreOf (queryLowerOf q) : ℚ) * 0.1
                   + (techCountOf (queryLowerOf q) : ℚ) * 0.1) := by
  constructor
  · rw [parse_query_intent, classify_of_search_fallback _ h0 hc hr ht]
  · rw [classify_of_search_fallback _ h0 hc hr ht]
    exact searchFallbackConfidence_eq _

/-- C3 witness: "find python repositories" reaches the fallback branch (search
score 2 is the strict maximum), and its base confidence is the capped sum. -/
theorem c3_witness_fallback_query :
    (parse_query sourceLanguages sourceProjectTypes
        "find python repositories").intent = QueryIntent.search ∧
    (classify (queryLowerOf "find python repositories")).2.1 =
      min 0.8 (0.4 + (searchScoreOf (queryLowerOf "find python repositories") : ℚ) * 0.1
                   + (techCountOf (queryLowerOf "find python repositories") : ℚ) * 0.1) :=
  c3_amended_search_fallback_confidence sourceLanguages sourceProjectTypes
    "find python repositories" (by decide) (by decide) (by decide) (by decide)

/-- C4, counterexample to the claimed default of 10: "best repos" contains no
decimal number and is classified as Ranking, yet the returned limit is 20 —
`result["limit"]` is initialized to 20 for every intent, never to 10. -/
theorem c4_counterexample_ranking_limit_twenty :
    firstDigitRun (queryLowerOf "best repos") = none ∧
    (parse_query sourceLanguages sourceProjectTypes "best repos").intent =
      QueryIntent.ranking ∧
    (parse_query sourceLanguages sourceProjectTypes "best repos").limit = 20 ∧
    (20 : Nat) ≠ 10 := by
  refine ⟨by decide, ?_, by decide, by decide⟩
  rw [parse_query_intent,
    classify_of_ranking _ (by decide) (by decide) (by decide)]

/-- C4 (amended): for every query containing no decimal number, the returned
limit equals 20 — the single initialization value used for all intents
(the claimed default of 10 appears nowhere in the parser). -/
theorem c4_amended_default_limit (lo ty : List String) (q : String)
    (h : firstDigitRun (queryLowerOf q) = none) :
    (parse_query lo ty q).limit = 20 := by
  rw [parse_query_limit]
  unfold limitOf
  rw [h]

/-- C4 witness: the number-free query "best repos" gets the default limit 20. -/
theorem c4_witness_best_repos :
    (parse_query sourceLanguages sourceProjectTypes "best repos").limit = 20 :=
  c4_amended_default_limit sourceLanguages sourceProjectTypes "best repos" (by decide)

/-- C5, counterexample to the claimed range [1, 50]: the query "0" contains
the decimal number 0, so `parse_query` returns limit min(0, 50) = 0, which is
below the claimed lower bound 1. -/
theorem c5_counterexample_limit_zero :
    (parse_query sourceLanguages sourceProjectTypes "0").limit = 0 ∧
    ¬ (1 ≤ (parse_query sourceLanguages sourceProjectTypes "0").limit) := by decide

/-- C5 (amended): for every query containing at least one decimal number the
returned limit equals min(first number found, 50), and for every input
whatsoever the returned limit is an integer in [0, 50] (0 is reachable, so
the claimed lower bound 1 does not hold). -/
theorem c5_amended_limit_clamp (lo ty : List String) (q : String) :
    (∀ ds, firstDigitRun (queryLowerOf q) = some ds →
        (parse_query lo ty q).limit = min (digitsToNat ds) 50) ∧
    (parse_query lo ty q).limit ≤ 50 := by
  rw [parse_query_limit]
  constructor
  · intro ds h
    unfold limitOf
    rw [h]
  · unfold limitOf
    cases h : firstDigitRun (queryLowerOf q) with
    | none => norm_num
    | some ds => exact min_le_right _ _
  
/-- C5 witness: "top 5 repos" contains the number 5, and the theorem yields
limit min(5, 50) = 5 together with the upper bound. -/
theorem c5_witness_top_five :
    (parse_query sourceLanguages sourceProjectTypes "top 5 repos").limit =
      min (digitsToNat ['5']) 50 ∧
    (parse_query sourceLanguages sourceProjectTypes "top 5 repos").limit ≤ 50 :=
  ⟨(c5_amended_limit_clamp sourceLanguages sourceProjectTypes "top 5 repos").1
      ['5'] (by decide),
   (c5_amended_limit_clamp sourceLanguages sourceProjectTypes "top 5 repos").2⟩

/-- C6: `validate_query` returns false when intent is Unknown; for Comparison
it returns true iff `repositories` has at least one entry; for Ranking or
Trending it returns true iff a language is set or a project type is set or
the confidence exceeds 0.6; for Search it returns true. -/
theorem c6_validate_query_cases (p : ParseResult) :
    (p.intent = QueryIntent.unknown → validate_query p = false) ∧
    (p.intent = QueryIntent.comparison →
      (validate_query p = true ↔ 1 ≤ p.repositories.length)) ∧
    ((p.intent = QueryIntent.ranking ∨ p.intent = QueryIntent.trending) →
      (validate_query p = true ↔
        (p.language ≠ none ∨ p.project_type ≠ none ∨ (0.6 : ℚ) < p.confidence))) ∧
    (p.intent = QueryIntent.search → validate_query p = true) := by
  refine ⟨?_, ?_, ?_, ?_⟩
  · intro h
    simp [validate_query, h]
  · intro h
    simp [validate_query, h]
  · intro h
    rcases h with h | h <;>
      simp [validate_query, h, Option.isSome_iff_ne_none, or_assoc]
  · intro h
    simp [validate_query, h]

/-- C6 witness: the parsed trending query has a language, so `validate_query`
accepts it through the Ranking/Trending clause. -/
theorem c6_witness_trending_valid :
    validate_query (parse_query sourceLanguages sourceProjectTypes
      "trending Python projects this week") = true :=
  ((c6_validate_query_cases _).2.2.1
    (Or.inr (by
      rw [parse_query_intent,
        classify_of_trending _ (by decide) (by decide) (by decide) (by decide)]))).mpr
    (Or.inl (by
      rw [parse_query_language]
      decide))

/-! ### Lemmas about the language-loop over an arbitrary set-iteration order. -/

theorem firstSome_eq_some_of_unique {α β : Type} (f : α → Option β) (v : β) :
    ∀ xs : List α, (∀ x ∈ xs, f x = none ∨ f x = some v) →
      (∃ x ∈ xs, f x = some v) → firstSome f xs = some v := by
  intro xs
  induction xs with
  | nil =>
    intro _ hex
    rcases hex with ⟨x, hx, _⟩
    exact absurd hx (List.not_mem_nil x)
  | cons a rest ih =>
    intro hall hex
    rcases hall a (by simp) with ha | ha
    · have hstep : firstSome f (a :: rest) = firstSome f rest := by
        simp [firstSome, ha]
      rw [hstep]
      apply ih
      · intro x hx
        exact hall x (by simp [hx])
      · rcases hex with ⟨x, hx, hfx⟩
        rcases List.mem_cons.mp hx with rfl | hx2
        · rw [ha] at hfx
          exact absurd hfx (by simp)
        · exact ⟨x, hx2, hfx⟩
    · simp [firstSome, ha]

theorem firstSome_ne_some {α β : Type} (f : α → Option β) (v : β)
    (h : ∀ x, f x ≠ some v) : ∀ xs : List α, firstSome f xs ≠ some v := by
  intro xs
  induction xs with
  | nil => simp [firstSome]
  | cons a rest ih =>
    cases ha : f a with
    | none => simpa [firstSome, ha] using ih
    | some r =>
      simp only [firstSome, ha]
      intro hc
      exact h a (ha.trans hc)

theorem extract_language_of_firstSome_some (lo : List String) (ql : List Char) (r : String)
    (h : firstSome (langDecision ql) lo = some r) : extract_language lo ql = some r := by
  unfold extract_language
  rw [h]

/-- Under no "c language"/"c programming" context, no single step of the
language loop can return the bare language "c": the "c" entry either resolves
to "c++" or is skipped, and every other entry returns itself or a multi-letter
alias. -/
theorem langDecision_ne_c (ql : List Char) (hctx : hasCContext ql = false)
    (lang : String) : langDecision ql lang ≠ some "c" := by
  have hctx2 : occursStandalone "c language".data ql = false ∧
      occursStandalone "c programming".data ql = false := by
    unfold hasCContext at hctx
    simpa using hctx
  unfold langDecision
  by_cases h1 : lang.length = 1
  · rw [if_pos h1]
    by_cases h2 : occursStandalone lang.data ql = true
    · rw [if_pos h2]
      by_cases h3 : lang = "c"
      · subst h3
        by_cases h4 : occursStandalone ['c', '+', '+'] ql = true
        · rw [if_pos (by simp [h4])]
          simp
        · rw [if_neg (by simp [h4]),
            if_pos (by simp [hctx2.1, hctx2.2])]
          simp
      · rw [if_neg (by simp [h3]), if_neg (by simp [h3])]
        simp [h3]
    · rw [if_neg h2]
      simp
  · rw [if_neg h1]
    by_cases h2 : occursStandalone lang.data ql = true
    · rw [if_pos h2]
      by_cases hjs : lang = "js"
      · rw [if_pos hjs]
        simp
      rw [if_neg hjs]
      by_cases hts : lang = "ts"
      · rw [if_pos hts]
        simp
      rw [if_neg hts]
      by_cases hcpp : lang = "cpp"
      · rw [if_pos hcpp]
        simp
      rw [if_neg hcpp]
      intro hcon
      apply h1
      have hlc : lang = "c" := by
        injection hcon
      rw [hlc]
      rfl
    · rw [if_neg h2]
      simp

theorem extract_language_ne_c (lo : List String) (ql : List Char)
    (hctx : hasCContext ql = false) : extract_language lo ql ≠ some "c" := by
  unfold extract_language
  cases hfs : firstSome (langDecision ql) lo with
  | some r =>
    intro hc
    have hc2 : some r = some "c" := hc
    exact firstSome_ne_some (langDecision ql) "c"
      (fun x => langDecision_ne_c ql hctx x) lo (hfs.trans hc2)
  | none =>
    split_ifs <;> simp

/-- C7: parsing "trending Python projects this week" yields intent Trending,
language "python" and filters.days = 7 (for every iteration order of the
language set that is drawn from the source vocabulary and contains "python";
"python" is the only entry that matches this query, so the order is
immaterial); the Trending branch first sets the default days = 30 and the
time-window filter, checked in the fixed priority order "this year", then
"this month", then "this week", then "recent" with first match winning,
overrides it with 7. -/
theorem c7_trending_python_this_week :
    (∀ lo ty : List String, lo ⊆ sourceLanguages → "python" ∈ lo →
      (parse_query lo ty "trending Python projects this week").intent =
        QueryIntent.trending ∧
      (parse_query lo ty "trending Python projects this week").language =
        some "python" ∧
      (parse_query lo ty "trending Python projects this week").filters.days =
        some 7) ∧
    (classify (queryLowerOf "trending Python projects this week")).2.2 = some 30 ∧
    (extract_filters (queryLowerOf "trending Python projects this week")).days = some 7 ∧
    (extract_filters ("this year this month this week recent".data)).days = some 365 ∧
    (extract_filters ("this month this week recent".data)).days = some 30 ∧
    (extract_filters ("this week recent".data)).days = some 7 ∧
    (extract_filters ("recent".data)).days = some 30 := by
  refine ⟨?_, by decide, by decide, by decide, by decide, by decide, by decide⟩
  intro lo ty hsub hmem
  refine ⟨?_, ?_, ?_⟩
  · rw [parse_query_intent,
      classify_of_trending _ (by decide) (by decide) (by decide) (by decide)]
  · rw [parse_query_language]
    apply extract_language_of_firstSome_some
    apply firstSome_eq_some_of_unique
    · intro x hx
      exact (show ∀ x ∈ sourceLanguages,
          langDecision (queryLowerOf "trending Python projects this week") x = none ∨
          langDecision (queryLowerOf "trending Python projects this week") x = some "python"
        from by decide) x (hsub hx)
    · exact ⟨"python", hmem, by decide⟩
  · rw [parse_query_filters_days]
    decide

/-- C7 witness: the theorem instantiated at the source-text iteration orders. -/
theorem c7_witness_source_order :
    (parse_query sourceLanguages sourceProjectTypes
        "trending Python projects this week").intent = QueryIntent.trending ∧
    (parse_query sourceLanguages sourceProjectTypes
        "trending Python projects this week").language = some "python" ∧
    (parse_query sourceLanguages sourceProjectTypes
        "trending Python projects this week").filters.days = some 7 :=
  c7_trending_python_this_week.1 sourceLanguages sourceProjectTypes
    (fun _ h => h) (by decide)

/-- C8, counterexample: in the query "r packages" the letter "r" occurs bare
and standalone, with no "language"/"programming" context anywhere, and yet it
is returned as the extracted language — the contextual disambiguation guards
only "c", never "r". -/
theorem c8_counterexample_bare_r_returned :
    occursStandalone ['r'] (queryLowerOf "r packages") = true ∧
    occursStandalone "r language".data (queryLowerOf "r packages") = false ∧
    occursStandalone "r programming".data (queryLowerOf "r packages") = false ∧
    (parse_query sourceLanguages sourceProjectTypes "r packages").language = some "r" := by
  refine ⟨by decide, by decide, by decide, ?_⟩
  rw [parse_query_language]
  decide

/-- C8 (amended): only the single-letter entry "c" is subject to contextual
disambiguation — for every query without "c language"/"c programming" context
the extracted language is never the bare "c" (for any iteration order) —
whereas the single-letter entry "r" receives no disambiguation: a bare
standalone "r" (as in "r packages") is returned as the extracted language. -/
theorem c8_amended_only_c_disambiguated :
    (∀ (lo ty : List String) (q : String),
        hasCContext (queryLowerOf q) = false →
        (parse_query lo ty q).language ≠ some "c") ∧
    (∀ lo ty : List String, lo ⊆ sourceLanguages → "r" ∈ lo →
        (parse_query lo ty "r packages").language = some "r") := by
  constructor
  · intro lo ty q hctx
    rw [parse_query_language]
    exact extract_language_ne_c lo (queryLowerOf q) hctx
  · intro lo ty hsub hmem
    rw [parse_query_language]
    apply extract_language_of_firstSome_some
    apply firstSome_eq_some_of_unique
    · intro x hx
      exact (show ∀ x ∈ sourceLanguages,
          langDecision (queryLowerOf "r packages") x = none ∨
          langDecision (queryLowerOf "r packages") x = some "r"
        from by decide) x (hsub hx)
    · exact ⟨"r", hmem, by decide⟩

/-- C8 witness: both parts of the theorem discharged at concrete inputs: the
context-free query "best repos" never yields language "c", and "r packages"
yields language "r" at the source-text iteration order. -/
theorem c8_witness_concrete :
    hasCContext (queryLowerOf "best repos") = false ∧
    (parse_query sourceLanguages sourceProjectTypes "best repos").language ≠ some "c" ∧
    (parse_query sourceLanguages sourceProjectTypes "r packages").language = some "r" :=
  ⟨by decide,
   c8_amended_only_c_disambiguated.1 sourceLanguages sourceProjectTypes "best repos"
     (by decide),
   c8_amended_only_c_disambiguated.2 sourceLanguages sourceProjectTypes
     (fun _ h => h) (by decide)⟩
